import Mathlib

/-!
# CVEStack dispatch engine: a shallow embedding of `posters.py`

This file embeds the cache-backed deduplication core of the CVEStack
repository (`src/posters.py`) and proves the testable properties stated in
its design specification.

The embedded pieces are:

* `CVEPoster.__init__` (lines 45-57): cache-file loading, including the
  missing-file and corrupt-file paths;
* `CVEPoster.post_to_feed_if_needed` (lines 69-86): one poll cycle —
  diff against the cached identity set, post each new item, persist the
  new cache when the candidate list is non-empty;
* the plain `for`-loop delivery of lines 75-81, re-modelled with a
  fallible `post` so that exception propagation is observable;
* `SlackPoster.__init__` (lines 206-209) and
  `LoggingPoster._reload_config` (lines 151-157).

The external matcher (`get_cve_generator(config).generate_feed()`, whose
classes live outside this file's sources) is treated as an opaque producer:
every cycle takes the current candidate list as a parameter.  Python sets of
identity strings are modelled as duplicate-free lists (`List.dedup`), with
set-level statements phrased through `List.toFinset`; Python truthiness of
`self.old_cve_list` (`None` and the empty set are falsy) is the `truthy`
function below.
-/

namespace CVEStack

/-- A candidate vulnerability record.  The dispatch engine uses an item only
through `str(c)` — its deterministic serialization, produced by the matcher
subsystem outside this file's sources; per the specification the
serialization of the full record *is* the item's identity, so the record is
modelled by that identity string. -/
structure Item where
  serialized : String
deriving DecidableEq, Repr

/-- `str(c)` of line 72: the identity string of an item. -/
def itemStr (c : Item) : String := c.serialized

/-- A value handed to a sink's `post`: either the original item record
(line 80-81, the branch without a prior truthy cache) or a bare identity
string (line 77-78, an element of `diffed_list`). -/
inductive Posted where
  | item (c : Item)
  | str (s : String)
deriving DecidableEq, Repr

/-- Observable state of the per-sink cache file on disk. -/
inductive CacheFile where
  | missing
  | corrupt
  | parsed (l : List String)
deriving DecidableEq, Repr

/-- The dedup-relevant mutable state of a `CVEPoster`: `self.old_cve_list`
(a Python set of identity strings, or `None`), and the cache file. -/
structure PosterState where
  old_cve_list : Option (List String)
  cache_file : CacheFile
deriving DecidableEq, Repr

/-- Python truthiness of `self.old_cve_list` at line 75: `None` and the
empty set are falsy. -/
def truthy : Option (List String) → Bool
  | none => false
  | some l => !l.isEmpty

/-- `CVEPoster.__init__` lines 45-57: load the cache file.  Missing file:
`old_cve_list` stays `None`.  Corrupt file (`json.loads` raises):
`old_cve_list` is reset to `None` and a warning line is printed (the
returned `Bool`); the exception is swallowed, so construction never fails
here.  Parseable file: `set(json.loads(...))`, modelled by `dedup`. -/
def CVEPoster_load_cache (f : CacheFile) : PosterState × Bool :=
  match f with
  | .missing => (⟨none, f⟩, false)
  | .corrupt => (⟨none, f⟩, true)
  | .parsed l => (⟨some l.dedup, f⟩, false)

/-- `cve_strs - self.old_cve_list` of line 76: set difference, on
duplicate-free lists. -/
def setDiff (a b : List String) : List String :=
  a.filter (fun x => decide (x ∉ b))

/-- The values posted by one cycle, lines 75-81: if `self.old_cve_list` is
truthy, each element of `diffed_list` (an identity string) is posted;
otherwise each element of `self.cve_list` (an item record) is posted. -/
def deliverySet (st : PosterState) (cve_list : List Item) : List Posted :=
  if truthy st.old_cve_list then
    (setDiff ((cve_list.map itemStr).dedup) (st.old_cve_list.getD [])).map Posted.str
  else
    cve_list.map Posted.item

/-- `CVEPoster.post_to_feed_if_needed` lines 69-86 (with every `post`
succeeding): computes `cve_strs`, posts the delivery set, and — only when
`self.cve_list` is non-empty (line 83) — replaces `self.old_cve_list` with
`cve_strs` and rewrites the cache file.  Returns the posted values and the
new state. -/
def post_to_feed_if_needed (st : PosterState) (cve_list : List Item) :
    List Posted × PosterState :=
  let cve_strs := (cve_list.map itemStr).dedup
  let posted := deliverySet st cve_list
  let st' :=
    if cve_list.isEmpty then st
    else { old_cve_list := some cve_strs, cache_file := CacheFile.parsed cve_strs }
  (posted, st')

/-- The plain `for` loop of lines 75-81 with a fallible `post` (`false`
models `self.post` raising, as `SlackPoster.post`'s `raise_for_status` at
line 225 does on a non-2xx response).  A raised exception propagates out of
the loop, so iteration stops at the first failure.  Returns the values for
which `post` was attempted, and whether the whole loop completed. -/
def postLoop (post : Posted → Bool) : List Posted → List Posted × Bool
  | [] => ([], true)
  | x :: xs =>
    if post x then
      let r := postLoop post xs
      (x :: r.1, r.2)
    else
      ([x], false)

/-- One poll cycle's delivery attempts under a fallible `post`: the loop of
lines 75-81 applied to the cycle's delivery set. -/
def post_to_feed_attempts (st : PosterState) (cve_list : List Item)
    (post : Posted → Bool) : List Posted × Bool :=
  postLoop post (deliverySet st cve_list)

/-- Identity strings recorded in the cache file, when it is well-formed. -/
def cacheIdents : CacheFile → Option (List String)
  | .parsed l => some l
  | _ => none

/-- The webhook-relevant state a `SlackPoster` holds after construction. -/
structure SlackState where
  slack_webhook : Option String
deriving DecidableEq, Repr

/-- The configuration keys the embedded code paths read.  `config.get(k)`
on an unset key returns `None`, hence the `Option` fields;
`config.get('log_enable_syslog', False)` defaults to `false`. -/
structure Config where
  slack_webhook : Option String
  log_location : Option String
  log_enable_syslog : Bool
deriving DecidableEq, Repr

/-- `SlackPoster.__init__` lines 206-209: store
`config.get('slack_webhook')` — unchecked, `None` when the key is unset —
and then immediately run `post_to_feed_if_needed`, so delivery attempts
happen during construction.  `cve_list` is what the matcher yields during
that constructor-time cycle. -/
def SlackPoster_init (config : Config) (st : PosterState) (cve_list : List Item) :
    SlackState × (List Posted × PosterState) :=
  (⟨config.slack_webhook⟩, post_to_feed_if_needed st cve_list)

/-- The state of a `LoggingPoster`'s logger: `self.log_location`, the
construction-time `self.config.get('log_enable_syslog', False)` flag
(`self.config` is never reassigned), and the addresses of the
`SysLogHandler`s attached to the shared `CVEStack` logger, in attachment
order. -/
structure LogState where
  log_location : Option String
  config_log_enable_syslog : Bool
  handlers : List (Option String)
deriving DecidableEq, Repr

/-- `LoggingPoster._reload_config` lines 151-157: when the construction
config enabled syslog and the configured location changed, a fresh
`SysLogHandler(address=self.log_location)` — the location *before* the
update on line 157 — is added to the logger (no handler is removed); then
`self.log_location` becomes the new location. -/
def LoggingPoster_reload_config (st : LogState) (config : Config) : LogState :=
  let new_log_location := config.log_location
  let st' :=
    if st.config_log_enable_syslog && decide (new_log_location ≠ st.log_location) then
      { st with handlers := st.handlers ++ [st.log_location] }
    else st
  { st' with log_location := new_log_location }

end CVEStack

namespace CVEStack

/-! ## General lemmas about the embedded functions -/

lemma mem_setDiff {x : String} {a b : List String} :
    x ∈ setDiff a b ↔ x ∈ a ∧ x ∉ b := by
  simp [setDiff, List.mem_filter]

lemma setDiff_self (a : List String) : setDiff a a = [] := by
  simp [setDiff, List.filter_eq_nil_iff]

lemma setDiff_nil (b : List String) : setDiff [] b = [] := rfl

lemma setDiff_nodup {a b : List String} (h : a.Nodup) : (setDiff a b).Nodup :=
  h.filter _

lemma deliverySet_of_truthy {st : PosterState} {old : List String}
    (h1 : st.old_cve_list = some old) (h2 : old ≠ []) (cve_list : List Item) :
    deliverySet st cve_list =
      (setDiff ((cve_list.map itemStr).dedup) old).map Posted.str := by
  have hne : old.isEmpty = false := by simpa [List.isEmpty_iff] using h2
  simp [deliverySet, truthy, h1, hne]

lemma deliverySet_of_falsy {st : PosterState}
    (h : truthy st.old_cve_list = false) (cve_list : List Item) :
    deliverySet st cve_list = cve_list.map Posted.item := by
  simp [deliverySet, h]

lemma truthy_eq_false_iff (o : Option (List String)) :
    truthy o = false ↔ o = none ∨ o = some [] := by
  cases o with
  | none => simp [truthy]
  | some l => simp [truthy, List.isEmpty_iff]

lemma posted_eq_fst (st : PosterState) (cve_list : List Item) :
    (post_to_feed_if_needed st cve_list).1 = deliverySet st cve_list := rfl

lemma state_of_ne_nil {st : PosterState} {cve_list : List Item}
    (h : cve_list ≠ []) :
    (post_to_feed_if_needed st cve_list).2 =
      { old_cve_list := some ((cve_list.map itemStr).dedup),
        cache_file := CacheFile.parsed ((cve_list.map itemStr).dedup) } := by
  have : cve_list.isEmpty = false := by simpa [List.isEmpty_iff] using h
  simp [post_to_feed_if_needed, this]

lemma state_of_nil (st : PosterState) :
    (post_to_feed_if_needed st []).2 = st := rfl

lemma nodup_mem_singleton {α : Type} {l : List α} {a : α}
    (hn : l.Nodup) (h : ∀ x, x ∈ l ↔ x = a) : l = [a] := by
  cases l with
  | nil => exact absurd ((h a).mpr rfl) (List.not_mem_nil a)
  | cons x xs =>
    have hx : x = a := (h x).mp (List.mem_cons_self x xs)
    subst hx
    have hxs : xs = [] := by
      cases xs with
      | nil => rfl
      | cons y ys =>
        have hy : y = x := (h y).mp (List.mem_cons_of_mem x (List.mem_cons_self y ys))
        have : x ∈ y :: ys := hy ▸ List.mem_cons_self y ys
        exact absurd this (List.nodup_cons.mp hn).1
    rw [hxs]

lemma dedup_map_ne_nil {cve_list : List Item} (h : cve_list ≠ []) :
    (cve_list.map itemStr).dedup ≠ [] := by
  simp [List.dedup_eq_nil, h]

end CVEStack

namespace CVEStack

/-! ## The specification claims -/

/-- C1: with a prior cache snapshot whose identity set is {"A","B"} and a
current candidate list whose identity set is {"A","B","C"}, one poll cycle
posts exactly the identity in the set difference {"C"}, and afterwards both
the in-memory `old_cve_list` and the persisted cache file hold the identity
set {"A","B","C"}. -/
theorem C1_incremental_delivery (st : PosterState) (old : List String)
    (cve_list : List Item)
    (h1 : st.old_cve_list = some old)
    (h2 : old.toFinset = {"A", "B"})
    (h3 : (cve_list.map itemStr).toFinset = {"A", "B", "C"}) :
    (post_to_feed_if_needed st cve_list).1 = [Posted.str "C"] ∧
    Option.map List.toFinset (post_to_feed_if_needed st cve_list).2.old_cve_list =
      some {"A", "B", "C"} ∧
    Option.map List.toFinset
        (cacheIdents (post_to_feed_if_needed st cve_list).2.cache_file) =
      some {"A", "B", "C"} := by
  have hold_ne : old ≠ [] := by
    intro h; rw [h] at h2; exact absurd h2 (by decide)
  have hcl_ne : cve_list ≠ [] := by
    intro h; rw [h] at h3; exact absurd h3 (by decide)
  have hded : ((cve_list.map itemStr).dedup).toFinset = {"A", "B", "C"} := by
    rw [← h3]; exact List.toFinset.ext (fun x => List.mem_dedup)
  have hdiff : setDiff ((cve_list.map itemStr).dedup) old = ["C"] := by
    apply nodup_mem_singleton (setDiff_nodup (List.nodup_dedup _))
    intro x
    rw [mem_setDiff]
    constructor
    · rintro ⟨hin, hout⟩
      have hx3 : x ∈ ({"A", "B", "C"} : Finset String) := by
        rw [← hded]; exact List.mem_toFinset.mpr hin
      have hx2 : x ∉ ({"A", "B"} : Finset String) := by
        rw [← h2]; intro hc; exact hout (List.mem_toFinset.mp hc)
      simp only [Finset.mem_insert, Finset.mem_singleton] at hx3 hx2
      push_neg at hx2
      rcases hx3 with h | h | h
      · exact absurd h hx2.1
      · exact absurd h hx2.2
      · exact h
    · rintro rfl
      refine ⟨?_, ?_⟩
      · apply List.mem_toFinset.mp; rw [hded]; decide
      · intro hc
        have hC : ("C" : String) ∈ ({"A", "B"} : Finset String) := by
          rw [← h2]; exact List.mem_toFinset.mpr hc
        exact absurd hC (by decide)
  refine ⟨?_, ?_, ?_⟩
  · rw [posted_eq_fst, deliverySet_of_truthy h1 hold_ne, hdiff]; rfl
  · rw [state_of_ne_nil hcl_ne]; simp [hded]
  · rw [state_of_ne_nil hcl_ne]; simp [cacheIdents, hded]

/-- Witness for C1 at the spec's scenario: cache `["A","B"]`, candidates
`["A","B","C"]`. -/
theorem C1_incremental_delivery_witness :
    (⟨some ["A", "B"], CacheFile.parsed ["A", "B"]⟩ : PosterState).old_cve_list =
      some ["A", "B"] ∧
    (["A", "B"] : List String).toFinset = {"A", "B"} ∧
    (([⟨"A"⟩, ⟨"B"⟩, ⟨"C"⟩] : List Item).map itemStr).toFinset = {"A", "B", "C"} ∧
    ((post_to_feed_if_needed ⟨some ["A", "B"], CacheFile.parsed ["A", "B"]⟩
        [⟨"A"⟩, ⟨"B"⟩, ⟨"C"⟩]).1 = [Posted.str "C"] ∧
      Option.map List.toFinset
          (post_to_feed_if_needed ⟨some ["A", "B"], CacheFile.parsed ["A", "B"]⟩
            [⟨"A"⟩, ⟨"B"⟩, ⟨"C"⟩]).2.old_cve_list = some {"A", "B", "C"} ∧
      Option.map List.toFinset
          (cacheIdents (post_to_feed_if_needed
            ⟨some ["A", "B"], CacheFile.parsed ["A", "B"]⟩
            [⟨"A"⟩, ⟨"B"⟩, ⟨"C"⟩]).2.cache_file) = some {"A", "B", "C"}) :=
  ⟨rfl, by decide, by decide,
    C1_incremental_delivery _ ["A", "B"] _ rfl (by decide) (by decide)⟩

/-- C2: whatever the starting state, two consecutive poll cycles over the
same candidate list deliver nothing on the second cycle. -/
theorem C2_idempotence (st : PosterState) (cve_list : List Item) :
    (post_to_feed_if_needed (post_to_feed_if_needed st cve_list).2 cve_list).1 = [] := by
  by_cases h : cve_list = []
  · subst h
    rw [state_of_nil, posted_eq_fst]
    cases ht : truthy st.old_cve_list
    · simp [deliverySet, ht]
    · simp [deliverySet, ht, setDiff_nil]
  · rw [state_of_ne_nil h, posted_eq_fst,
      deliverySet_of_truthy rfl (dedup_map_ne_nil h), setDiff_self]
    rfl

/-- C3: a poll cycle with an empty candidate list posts nothing and leaves
the whole state — the in-memory `old_cve_list` and the cache file — exactly
as it was; the snapshot is overwritten only on the `if self.cve_list:`
branch, which requires at least one candidate. -/
theorem C3_empty_non_erasure (st : PosterState) (cve_list : List Item)
    (h : cve_list = []) :
    post_to_feed_if_needed st cve_list = ([], st) := by
  subst h
  have h1 : (post_to_feed_if_needed st []).1 = [] := by
    rw [posted_eq_fst]
    cases ht : truthy st.old_cve_list
    · simp [deliverySet, ht]
    · simp [deliverySet, ht, setDiff_nil]
  have h2 : (post_to_feed_if_needed st []).2 = st := state_of_nil st
  calc post_to_feed_if_needed st [] =
      ((post_to_feed_if_needed st []).1, (post_to_feed_if_needed st []).2) := rfl
    _ = ([], st) := by rw [h1, h2]

/-- Witness for C3 at a non-empty prior snapshot and an empty candidate
list. -/
theorem C3_empty_non_erasure_witness :
    post_to_feed_if_needed ⟨some ["A", "B"], CacheFile.parsed ["A", "B"]⟩ [] =
      ([], ⟨some ["A", "B"], CacheFile.parsed ["A", "B"]⟩) :=
  C3_empty_non_erasure _ [] rfl

/-- C4: on a cold start (`old_cve_list = None`) with a non-empty,
duplicate-free candidate list, the cycle posts exactly the candidate items,
each exactly once. -/
theorem C4_cold_start (st : PosterState) (cve_list : List Item)
    (h0 : st.old_cve_list = none) (_h1 : cve_list ≠ []) (h2 : cve_list.Nodup) :
    (post_to_feed_if_needed st cve_list).1 = cve_list.map Posted.item ∧
    ∀ c ∈ cve_list,
      ((post_to_feed_if_needed st cve_list).1.count (Posted.item c)) = 1 := by
  have hposted : (post_to_feed_if_needed st cve_list).1 = cve_list.map Posted.item := by
    rw [posted_eq_fst, deliverySet_of_falsy (by rw [h0]; rfl)]
  refine ⟨hposted, fun c hc => ?_⟩
  rw [hposted]
  have hinj : Function.Injective Posted.item := fun a b hab => by injection hab
  exact List.count_eq_one_of_mem (h2.map hinj) (List.mem_map_of_mem _ hc)

/-- Witness for C4 at a cold start with candidates of identities "A" and
"B". -/
theorem C4_cold_start_witness :
    (⟨none, CacheFile.missing⟩ : PosterState).old_cve_list = none ∧
    ([⟨"A"⟩, ⟨"B"⟩] : List Item) ≠ [] ∧
    ([⟨"A"⟩, ⟨"B"⟩] : List Item).Nodup ∧
    ((post_to_feed_if_needed ⟨none, CacheFile.missing⟩ [⟨"A"⟩, ⟨"B"⟩]).1 =
        ([⟨"A"⟩, ⟨"B"⟩] : List Item).map Posted.item ∧
      ∀ c ∈ ([⟨"A"⟩, ⟨"B"⟩] : List Item),
        ((post_to_feed_if_needed ⟨none, CacheFile.missing⟩
            [⟨"A"⟩, ⟨"B"⟩]).1.count (Posted.item c)) = 1) :=
  ⟨rfl, by decide, by decide, C4_cold_start _ _ rfl (by decide) (by decide)⟩

/-- C5: loading the cache during construction never fails: a missing cache
file yields an absent snapshot with no warning, and a corrupt (unparseable)
cache file yields an absent snapshot with the warning printed; both are
total outcomes of `CVEPoster_load_cache`. -/
theorem C5_load_cache_recovery :
    CVEPoster_load_cache CacheFile.missing = (⟨none, CacheFile.missing⟩, false) ∧
    CVEPoster_load_cache CacheFile.corrupt = (⟨none, CacheFile.corrupt⟩, true) :=
  ⟨rfl, rfl⟩

end CVEStack

namespace CVEStack

/-- C6 counterexample: a cold-start cycle with two candidate items, where
`post` raises on the first one — the delivery set has two entries, the loop
stops with a failure, and the second item is never attempted, so one item's
failure does prevent the remaining deliveries. -/
theorem C6_abort_counterexample :
    (deliverySet ⟨none, CacheFile.missing⟩ [⟨"A"⟩, ⟨"B"⟩]).length = 2 ∧
    (post_to_feed_attempts ⟨none, CacheFile.missing⟩ [⟨"A"⟩, ⟨"B"⟩]
        (fun p => decide (p ≠ Posted.item ⟨"A"⟩))).2 = false ∧
    Posted.item ⟨"B"⟩ ∉ (post_to_feed_attempts ⟨none, CacheFile.missing⟩
        [⟨"A"⟩, ⟨"B"⟩] (fun p => decide (p ≠ Posted.item ⟨"A"⟩))).1 := by
  decide

/-- C6 (amended): a delivery failure aborts the batch — when the delivery
set is any prefix of successes followed by a failing value, the cycle
attempts exactly that prefix plus the failing value and stops; later values
are never attempted and no errors are collected. -/
theorem C6_abort_on_failure (st : PosterState) (cve_list : List Item)
    (post : Posted → Bool) (xs ys : List Posted) (x : Posted)
    (hd : deliverySet st cve_list = xs ++ x :: ys)
    (hxs : ∀ a ∈ xs, post a = true) (hx : post x = false) :
    post_to_feed_attempts st cve_list post = (xs ++ [x], false) := by
  unfold post_to_feed_attempts
  rw [hd]
  clear hd
  induction xs with
  | nil => simp [postLoop, hx]
  | cons a as ih =>
    have ha : post a = true := hxs a (List.mem_cons_self a as)
    have ih' := ih (fun b hb => hxs b (List.mem_cons_of_mem a hb))
    simp only [List.cons_append, postLoop, ha, if_true]
    have ih2 : postLoop post (as.append (x :: ys)) = (as ++ [x], false) := ih'
    rw [ih2]

/-- Witness for C6 (amended): with the failing value in the middle, the
cycle attempts the first two delivery-set entries only. -/
theorem C6_abort_on_failure_witness :
    deliverySet ⟨none, CacheFile.missing⟩ [⟨"A"⟩, ⟨"B"⟩, ⟨"C"⟩] =
      [Posted.item ⟨"A"⟩] ++ Posted.item ⟨"B"⟩ :: [Posted.item ⟨"C"⟩] ∧
    (∀ a ∈ [Posted.item ⟨"A"⟩],
      (fun p => decide (p ≠ Posted.item (⟨"B"⟩ : Item))) a = true) ∧
    (fun p => decide (p ≠ Posted.item (⟨"B"⟩ : Item))) (Posted.item ⟨"B"⟩) = false ∧
    post_to_feed_attempts ⟨none, CacheFile.missing⟩ [⟨"A"⟩, ⟨"B"⟩, ⟨"C"⟩]
        (fun p => decide (p ≠ Posted.item (⟨"B"⟩ : Item))) =
      ([Posted.item ⟨"A"⟩] ++ [Posted.item ⟨"B"⟩], false) :=
  ⟨by decide, by decide, by decide,
    C6_abort_on_failure ⟨none, CacheFile.missing⟩ [⟨"A"⟩, ⟨"B"⟩, ⟨"C"⟩]
      (fun p => decide (p ≠ Posted.item (⟨"B"⟩ : Item)))
      [Posted.item ⟨"A"⟩] [Posted.item ⟨"C"⟩] (Posted.item ⟨"B"⟩)
      (by decide) (by decide) (by decide)⟩

/-- C7 counterexample: with `slack_webhook` unset, `SlackPoster.__init__`
completes — no configuration error — storing an absent webhook, and a
delivery attempt is already made during construction. -/
theorem C7_no_config_error_counterexample :
    (SlackPoster_init ⟨none, none, false⟩ ⟨none, CacheFile.missing⟩ [⟨"A"⟩]).1 =
      ⟨none⟩ ∧
    (SlackPoster_init ⟨none, none, false⟩ ⟨none, CacheFile.missing⟩ [⟨"A"⟩]).2.1 =
      [Posted.item ⟨"A"⟩] := by
  decide

/-- C7 (amended): with `slack_webhook` unset, construction does not fail —
the unset key is stored as an absent webhook URL and the constructor runs a
full poll cycle (delivery attempts included); failure could only surface at
delivery time. -/
theorem C7_unchecked_webhook (config : Config) (st : PosterState)
    (cve_list : List Item) (h : config.slack_webhook = none) :
    (SlackPoster_init config st cve_list).1.slack_webhook = none ∧
    (SlackPoster_init config st cve_list).2 = post_to_feed_if_needed st cve_list :=
  ⟨h, rfl⟩

/-- Witness for C7 (amended) at a config with every key unset. -/
theorem C7_unchecked_webhook_witness :
    (⟨none, none, false⟩ : Config).slack_webhook = none ∧
    ((SlackPoster_init ⟨none, none, false⟩ ⟨none, CacheFile.missing⟩
        [⟨"A"⟩]).1.slack_webhook = none ∧
      (SlackPoster_init ⟨none, none, false⟩ ⟨none, CacheFile.missing⟩ [⟨"A"⟩]).2 =
        post_to_feed_if_needed ⟨none, CacheFile.missing⟩ [⟨"A"⟩]) :=
  ⟨rfl, C7_unchecked_webhook ⟨none, none, false⟩ ⟨none, CacheFile.missing⟩
    [⟨"A"⟩] rfl⟩

/-- C8: at the failing input — syslog mode, attached handler bound to
"addrA", configuration changed to "addrB" — `_reload_config` adds a second
handler bound to the *old* address "addrA" and detaches nothing, so the
handler list is not the single new-address transport the specification
describes. -/
theorem C8_reload_syslog_divergence :
    LoggingPoster_reload_config ⟨some "addrA", true, [some "addrA"]⟩
        ⟨none, some "addrB", true⟩ =
      ⟨some "addrB", true, [some "addrA", some "addrA"]⟩ ∧
    (LoggingPoster_reload_config ⟨some "addrA", true, [some "addrA"]⟩
        ⟨none, some "addrB", true⟩).handlers ≠ [some "addrB"] := by
  decide

/-- C9 counterexample: with an existing-but-empty prior snapshot (loaded
from a cache file holding `[]`), a prior snapshot exists, yet the delivered
value is the original item record, not its identity string. -/
theorem C9_existing_empty_snapshot_counterexample :
    (⟨some [], CacheFile.parsed []⟩ : PosterState).old_cve_list ≠ none ∧
    (post_to_feed_if_needed ⟨some [], CacheFile.parsed []⟩ [⟨"A"⟩]).1 =
      [Posted.item ⟨"A"⟩] ∧
    Posted.str "A" ∉ (post_to_feed_if_needed ⟨some [], CacheFile.parsed []⟩
      [⟨"A"⟩]).1 := by
  decide

/-- C9 (amended): when the prior snapshot is absent *or empty*, each
delivered value is the original item record; when a non-empty prior
snapshot exists, each delivered value is the serialized identity string of
a new item. -/
theorem C9_delivered_value_by_branch (st : PosterState) (cve_list : List Item) :
    ((st.old_cve_list = none ∨ st.old_cve_list = some []) →
      (post_to_feed_if_needed st cve_list).1 = cve_list.map Posted.item) ∧
    (∀ old, st.old_cve_list = some old → old ≠ [] →
      (post_to_feed_if_needed st cve_list).1 =
        (setDiff ((cve_list.map itemStr).dedup) old).map Posted.str) := by
  constructor
  · intro h
    rw [posted_eq_fst, deliverySet_of_falsy ((truthy_eq_false_iff _).mpr h)]
  · intro old h1 h2
    rw [posted_eq_fst, deliverySet_of_truthy h1 h2]

/-- Witness for C9 (amended): both branches at concrete states. -/
theorem C9_delivered_value_by_branch_witness :
    (post_to_feed_if_needed ⟨none, CacheFile.missing⟩ [⟨"B"⟩]).1 =
      ([⟨"B"⟩] : List Item).map Posted.item ∧
    (post_to_feed_if_needed ⟨some ["A"], CacheFile.parsed ["A"]⟩ [⟨"B"⟩]).1 =
      (setDiff ((([⟨"B"⟩] : List Item).map itemStr).dedup) ["A"]).map Posted.str :=
  ⟨(C9_delivered_value_by_branch ⟨none, CacheFile.missing⟩ [⟨"B"⟩]).1 (Or.inl rfl),
    (C9_delivered_value_by_branch ⟨some ["A"], CacheFile.parsed ["A"]⟩
      [⟨"B"⟩]).2 ["A"] rfl (by decide)⟩

/-- C10: a cache file parsing to the empty array loads as the empty (not
absent) snapshot, and a cycle starting from an empty snapshot delivers
every candidate item — exactly what the cold-start (absent-snapshot) cycle
delivers, because line 75 tests truthiness, not existence. -/
theorem C10_empty_cache_is_cold_start (st : PosterState) (cve_list : List Item)
    (h : st.old_cve_list = some []) :
    (CVEPoster_load_cache (CacheFile.parsed [])).1.old_cve_list = some [] ∧
    (post_to_feed_if_needed st cve_list).1 = cve_list.map Posted.item ∧
    (post_to_feed_if_needed st cve_list).1 =
      (post_to_feed_if_needed ⟨none, st.cache_file⟩ cve_list).1 := by
  have h2 : (post_to_feed_if_needed st cve_list).1 = cve_list.map Posted.item := by
    rw [posted_eq_fst, deliverySet_of_falsy ((truthy_eq_false_iff _).mpr (Or.inr h))]
  refine ⟨rfl, h2, ?_⟩
  rw [h2, posted_eq_fst, @deliverySet_of_falsy ⟨none, st.cache_file⟩ rfl cve_list]

/-- Witness for C10 at a state loaded from an empty cache array. -/
theorem C10_empty_cache_is_cold_start_witness :
    (⟨some [], CacheFile.parsed []⟩ : PosterState).old_cve_list = some [] ∧
    ((CVEPoster_load_cache (CacheFile.parsed [])).1.old_cve_list = some [] ∧
      (post_to_feed_if_needed ⟨some [], CacheFile.parsed []⟩ [⟨"A"⟩]).1 =
        ([⟨"A"⟩] : List Item).map Posted.item ∧
      (post_to_feed_if_needed ⟨some [], CacheFile.parsed []⟩ [⟨"A"⟩]).1 =
        (post_to_feed_if_needed ⟨none, CacheFile.parsed []⟩ [⟨"A"⟩]).1) :=
  ⟨rfl, C10_empty_cache_is_cold_start ⟨some [], CacheFile.parsed []⟩ [⟨"A"⟩] rfl⟩

end CVEStack
